import Mathlib

set_option maxRecDepth 10000
set_option maxHeartbeats 1000000

/-
Verification of the heuristic mammography scorer in
src/utils/image_validator.py (class AIImageValidator).

Modelling conventions:
- Pixel intensities are naturals (uint8 values 0..255); all derived float
  arithmetic (np.mean, np.var, np.std, filter2D) is modelled exactly over ℚ.
- An image is either a 2-D grayscale grid or a 3-channel RGB grid, mirroring
  the len(image.shape) dispatch in the Python code.
- The OpenCV detector calls whose output the scorer only inspects
  (cv2.HoughCircles, cv2.findContours over the Canny edge map) are modelled
  as oracle parameters in a CV structure: the scorer uses only the count of
  circles found and the count of contours, exactly as the source does.
- OpenCV raises cv2.error when given an empty (zero-sized) input array
  (cvtColor, filter2D, Canny, calcHist all assert a non-empty source);
  the corresponding steps are modelled with Except and an emptiness guard.
  numpy operations (slicing, np.mean, np.var) do not raise on empty input;
  np.mean of an empty slice is NaN, and NaN < 100 is False, which the
  corner-uniformity scorer reflects by returning its 0.4 branch there.
- The comparisons 10 < std < 50 and 5 < std < 80 on the contrast standard
  deviation are modelled by the equivalent comparisons of the variance with
  100, 2500, 25, 6400 (both sides nonnegative), keeping the definition
  executable; the theorems state the bands in terms of Real.sqrt.
-/

namespace ImageValidator

/-- Grayscale image: height, width, and a total intensity function; only the
values on the grid range h times w are meaningful. -/
structure GrayImage where
  h : ℕ
  w : ℕ
  pix : ℕ → ℕ → ℕ

/-- Three-channel RGB image as decoded by the loader. -/
structure RGBImage where
  h : ℕ
  w : ℕ
  r : ℕ → ℕ → ℕ
  g : ℕ → ℕ → ℕ
  b : ℕ → ℕ → ℕ

/-- An input image is 2-D grayscale or 3-channel, matching the
len(image.shape) dispatch in _check_mammography_characteristics. -/
inductive Image where
  | gray (g : GrayImage)
  | rgb (c : RGBImage)

/-- Sum of a rational-valued function over the h times w grid. -/
def gridSum (h w : ℕ) (f : ℕ → ℕ → ℚ) : ℚ :=
  ∑ i ∈ Finset.range h, ∑ j ∈ Finset.range w, f i j

/-- np.mean over one channel of the image. -/
def chanMean (h w : ℕ) (f : ℕ → ℕ → ℕ) : ℚ :=
  gridSum h w (fun i j => (f i j : ℚ)) / ((h * w : ℕ) : ℚ)

/-- np.var (population variance) of three values. -/
def popVar3 (a b c : ℚ) : ℚ :=
  ((a - (a + b + c) / 3) ^ 2 + (b - (a + b + c) / 3) ^ 2 +
    (c - (a + b + c) / 3) ^ 2) / 3

/-- np.var([np.mean(r), np.mean(g), np.mean(b)]) from _check_grayscale_nature. -/
def colorVariance (c : RGBImage) : ℚ :=
  popVar3 (chanMean c.h c.w c.r) (chanMean c.h c.w c.g) (chanMean c.h c.w c.b)

/-- Model of _check_grayscale_nature: a 2-D image scores 1.0; otherwise the
variance of the per-channel means is mapped through max(0, 1 - v/1000) and
min(1.0, _). -/
def check_grayscale_nature : Image → ℚ
  | .gray _ => 1
  | .rgb c => min 1 (max 0 (1 - colorVariance c / 1000))

/-- One reflection step of the OpenCV BORDER_REFLECT_101 rule. -/
def reflectOnce (n : ℕ) (t : ℤ) : ℤ :=
  if t < 0 then -t else if (n : ℤ) ≤ t then 2 * ((n : ℤ) - 1) - t else t

/-- OpenCV borderInterpolate with BORDER_REFLECT_101: a length-1 axis always
resolves to index 0; otherwise indices are folded back into range.  Three
reflection steps are exact for every index produced by a 5 by 5 kernel
(offsets in -2..2) on any axis of length at least 2. -/
def reflect101 (n : ℕ) (t : ℤ) : ℕ :=
  if n ≤ 1 then 0 else (reflectOnce n (reflectOnce n (reflectOnce n t))).toNat

/-- cv2.filter2D with the 5 by 5 averaging kernel np.ones((5,5))/25 at pixel
(i, j), with the default BORDER_REFLECT_101 border. -/
def blur5 (g : GrayImage) (i j : ℕ) : ℚ :=
  (∑ di ∈ Finset.range 5, ∑ dj ∈ Finset.range 5,
    ((g.pix (reflect101 g.h ((i : ℤ) + (di : ℤ) - 2))
            (reflect101 g.w ((j : ℤ) + (dj : ℤ) - 2)) : ℕ) : ℚ)) / 25

/-- np.abs(gray - blurred) at pixel (i, j). -/
def contrastAt (g : GrayImage) (i j : ℕ) : ℚ :=
  |(g.pix i j : ℚ) - blur5 g i j|

/-- Population variance of the local-contrast image; np.std in the source is
the square root of this quantity. -/
def contrastVariance (g : GrayImage) : ℚ :=
  (gridSum g.h g.w fun i j =>
      (contrastAt g i j - gridSum g.h g.w (contrastAt g) / ((g.h * g.w : ℕ) : ℚ)) ^ 2) /
    ((g.h * g.w : ℕ) : ℚ)

/-- Model of _analyze_contrast_patterns: the source compares
contrast_std = sqrt(contrastVariance) against 10, 50, 5, 80; since both sides
are nonnegative this is the comparison of the variance against the squares. -/
def analyze_contrast_patterns (g : GrayImage) : ℚ :=
  if 100 < contrastVariance g ∧ contrastVariance g < 2500 then 8 / 10
  else if 25 < contrastVariance g ∧ contrastVariance g < 6400 then 6 / 10
  else 3 / 10

/-- Oracle outputs of the two OpenCV detectors used by
_analyze_breast_shape_patterns: the number of circles HoughCircles finds on
the gray image (0 when it returns None), and the number of external contours
findContours yields on the Canny edge map of the gray image. -/
structure CV where
  houghCircleCount : GrayImage → ℕ
  cannyContourCount : GrayImage → ℕ

/-- Model of _analyze_breast_shape_patterns: 0.7 when at least one circle is
found, else 0.6 when more than 5 contours are found, else 0.4. -/
def analyze_breast_shape_patterns (cv : CV) (g : GrayImage) : ℚ :=
  if 0 < cv.houghCircleCount g then 7 / 10
  else if 5 < cv.cannyContourCount g then 6 / 10
  else 4 / 10

/-- np.mean of the rectangular region [r0, r1) times [c0, c1) of the image. -/
def regionMean (g : GrayImage) (r0 r1 c0 c1 : ℕ) : ℚ :=
  (∑ i ∈ Finset.Ico r0 r1, ∑ j ∈ Finset.Ico c0 c1, (g.pix i j : ℚ)) /
    (((r1 - r0) * (c1 - c0) : ℕ) : ℚ)

/-- np.var (population variance) of four values. -/
def popVar4 (a b c d : ℚ) : ℚ :=
  ((a - (a + b + c + d) / 4) ^ 2 + (b - (a + b + c + d) / 4) ^ 2 +
    (c - (a + b + c + d) / 4) ^ 2 + (d - (a + b + c + d) / 4) ^ 2) / 4

/-- Variance of the four corner means; the numpy slices gray[:50, :50],
gray[:50, -50:], gray[-50:, :50], gray[-50:, -50:] clip at the image border,
so each corner is a (min 50 h) times (min 50 w) patch. -/
def cornerVariance (g : GrayImage) : ℚ :=
  popVar4 (regionMean g 0 (min 50 g.h) 0 (min 50 g.w))
    (regionMean g 0 (min 50 g.h) (g.w - min 50 g.w) g.w)
    (regionMean g (g.h - min 50 g.h) g.h 0 (min 50 g.w))
    (regionMean g (g.h - min 50 g.h) g.h (g.w - min 50 g.w) g.w)

/-- Model of _check_medical_artifacts.  On an empty image the numpy corner
slices are empty, np.mean of an empty slice is NaN, the variance is NaN, and
NaN < 100 is False, so the source returns 0.4 there; otherwise the corner
variance is compared with 100. -/
def check_medical_artifacts (g : GrayImage) : ℚ :=
  if g.h = 0 ∨ g.w = 0 then 4 / 10
  else if cornerVariance g < 100 then 7 / 10 else 4 / 10

/-- cv2.calcHist bin v: the number of pixels with intensity v. -/
def histCount (g : GrayImage) (v : ℕ) : ℕ :=
  ∑ i ∈ Finset.range g.h, ∑ j ∈ Finset.range g.w,
    if g.pix i j = v then 1 else 0

/-- np.max over the 256 histogram bins. -/
def histMax (g : GrayImage) : ℕ :=
  (Finset.range 256).sup (histCount g)

/-- Peak loop of _analyze_histogram_patterns over a histogram with maximum mx:
indices 1..254 that are strict local maxima and exceed 10 percent of the
maximum (hist[i] > mx * 0.1, i.e. 10 * hist[i] > mx on integer counts).
The GaussianBlur call in the source has kernel size (1, 15) on the histogram
reshaped to a single row: the data axis gets kernel width 1 and the 15-tap
axis has extent 1, so the smoothing is the identity (up to one global scale
factor, which changes no comparison) and the loop runs on the raw counts. -/
def peakCountAux (hist : ℕ → ℕ) (mx : ℕ) : ℕ :=
  ((Finset.Ico 1 255).filter fun i =>
    hist (i - 1) < hist i ∧ hist (i + 1) < hist i ∧ mx < 10 * hist i).card

/-- Model of _analyze_histogram_patterns: 0.8 when there are 1 to 3
significant peaks, else 0.5. -/
def analyze_histogram_patterns (g : GrayImage) : ℚ :=
  if 1 ≤ peakCountAux (histCount g) (histMax g) ∧
      peakCountAux (histCount g) (histMax g) ≤ 3 then 8 / 10
  else 5 / 10

/-- OpenCV RGB2GRAY in its exact fixed-point form:
(4899 R + 9617 G + 1868 B + 8192) div 16384. -/
def rgbToGrayPixel (r g b : ℕ) : ℕ :=
  (4899 * r + 9617 * g + 1868 * b + 8192) / 16384

/-- cv2.cvtColor(image, COLOR_RGB2GRAY) on the whole grid. -/
def cvtColorGray (c : RGBImage) : GrayImage :=
  ⟨c.h, c.w, fun i j => rgbToGrayPixel (c.r i j) (c.g i j) (c.b i j)⟩

/-- Validation verdict produced by _check_mammography_characteristics:
the is_mammography flag and the aggregated confidence. -/
structure MammoResult where
  is_mammography : Bool
  confidence : ℚ
  deriving DecidableEq

/-- Aggregation step (lines 176-181 of the source): confidence is np.mean of
the five sub-scores and is_mammography is confidence > 0.7 (strict). -/
def aggregate (s1 s2 s3 s4 s5 : ℚ) : MammoResult :=
  ⟨decide (7 / 10 < (s1 + s2 + s3 + s4 + s5) / 5),
    (s1 + s2 + s3 + s4 + s5) / 5⟩

/-- Grayscale conversion step: cv2.cvtColor raises cv2.error on an empty
source; a 2-D input is used as-is without any OpenCV call. -/
def toGrayExc : Image → Except String GrayImage
  | .gray g => .ok g
  | .rgb c => if c.h = 0 ∨ c.w = 0 then .error "cvtColor" else .ok (cvtColorGray c)

/-- Contrast step: cv2.filter2D raises cv2.error on an empty source. -/
def contrastExc (g : GrayImage) : Except String ℚ :=
  if g.h = 0 ∨ g.w = 0 then .error "filter2D"
  else .ok (analyze_contrast_patterns g)

/-- Shape step: cv2.Canny (and HoughCircles) raise cv2.error on an empty
source. -/
def shapeExc (cv : CV) (g : GrayImage) : Except String ℚ :=
  if g.h = 0 ∨ g.w = 0 then .error "Canny"
  else .ok (analyze_breast_shape_patterns cv g)

/-- Histogram step: cv2.calcHist raises cv2.error on an empty source. -/
def histogramExc (g : GrayImage) : Except String ℚ :=
  if g.h = 0 ∨ g.w = 0 then .error "calcHist"
  else .ok (analyze_histogram_patterns g)

/-- Body of the try block of _check_mammography_characteristics: the five
sub-scores are computed in source order and aggregated; the first raising
step aborts the whole block.  _check_grayscale_nature and
_check_medical_artifacts never raise (numpy only). -/
def characteristicsExc (cv : CV) (img : Image) : Except String MammoResult :=
  match toGrayExc img with
  | .error e => .error e
  | .ok g =>
    match contrastExc g with
    | .error e => .error e
    | .ok s2 =>
      match shapeExc cv g with
      | .error e => .error e
      | .ok s3 =>
        match histogramExc g with
        | .error e => .error e
        | .ok s5 =>
          .ok (aggregate (check_grayscale_nature img) s2 s3
            (check_medical_artifacts g) s5)

/-- Model of _check_mammography_characteristics: the result dictionary starts
as is_mammography = False, confidence = 0.0; one try/except wraps all five
sub-scores and the aggregation, so any exception anywhere in the block leaves
the initial defaults in place. -/
def check_mammography_characteristics (cv : CV) (img : Image) : MammoResult :=
  match characteristicsExc cv img with
  | .ok r => r
  | .error _ => ⟨false, 0⟩

/-- Empty grayscale grid: a degenerate decoded input. -/
def emptyGray : GrayImage := ⟨0, 0, fun _ _ => 0⟩

/-- Oracle under which the detectors find nothing. -/
def cv0 : CV := ⟨fun _ => 0, fun _ => 0⟩

/-- Oracle under which HoughCircles finds one circle. -/
def cv9 : CV := ⟨fun _ => 1, fun _ => 0⟩

/-- A 1 by 6 grayscale image, left half intensity 0, right half 200. -/
def g6 : GrayImage := ⟨1, 6, fun _ j => if j < 3 then 0 else 200⟩

/-- A 1 by 1 grayscale image of intensity 0. -/
def g1 : GrayImage := ⟨1, 1, fun _ _ => 0⟩

/-- Sixteen bytes drawn uniformly at random, used as the red channel of a
randomized-channel image. -/
def randR : List ℕ := [243, 63, 206, 8, 104, 137, 103, 75, 40, 213, 225, 101, 12, 42, 206, 2]

/-- Sixteen bytes drawn uniformly at random, used as the green channel. -/
def randG : List ℕ := [32, 89, 53, 23, 135, 112, 100, 45, 15, 234, 203, 109, 151, 70, 218, 183]

/-- Sixteen bytes drawn uniformly at random, used as the blue channel. -/
def randB : List ℕ := [157, 186, 249, 91, 25, 0, 118, 238, 82, 109, 112, 28, 143, 111, 125, 15]

/-- A 512 by 512 three-channel image whose red, green and blue channels are
filled independently from the three random byte sequences (repeated with
column period 16): the channels are pairwise unrelated and each is far from
constant, yet the three per-channel means are nearly equal. -/
def randomRGB512 : RGBImage :=
  ⟨512, 512, fun _ j => randR.getD (j % 16) 0,
    fun _ j => randG.getD (j % 16) 0,
    fun _ j => randB.getD (j % 16) 0⟩

/-- A 3-channel image of height h and width 2w, the left half pure red
(255, 0, 0) and the right half pure blue (0, 0, 255). -/
def redBlueHalves (h w : ℕ) : RGBImage :=
  ⟨h, 2 * w, fun _ j => if j < w then 255 else 0,
    fun _ _ => 0,
    fun _ j => if j < w then 0 else 255⟩

/-- A 2 by 2 uniformly gray 3-channel image: all channels 100 everywhere. -/
def uniformGray2 : RGBImage :=
  ⟨2, 2, fun _ _ => 100, fun _ _ => 100, fun _ _ => 100⟩

/-- The contrast score only takes the three tier values. -/
lemma contrast_cases (g : GrayImage) :
    analyze_contrast_patterns g = 3 / 10 ∨ analyze_contrast_patterns g = 6 / 10 ∨
      analyze_contrast_patterns g = 8 / 10 := by
  unfold analyze_contrast_patterns
  split_ifs <;> simp

/-- The shape score only takes the three tier values. -/
lemma shape_cases (cv : CV) (g : GrayImage) :
    analyze_breast_shape_patterns cv g = 4 / 10 ∨
      analyze_breast_shape_patterns cv g = 6 / 10 ∨
      analyze_breast_shape_patterns cv g = 7 / 10 := by
  unfold analyze_breast_shape_patterns
  split_ifs <;> simp

/-- The artifact score only takes the two tier values. -/
lemma artifact_cases (g : GrayImage) :
    check_medical_artifacts g = 4 / 10 ∨ check_medical_artifacts g = 7 / 10 := by
  unfold check_medical_artifacts
  split_ifs <;> simp

/-- The histogram score only takes the two tier values. -/
lemma histogram_cases (g : GrayImage) :
    analyze_histogram_patterns g = 5 / 10 ∨ analyze_histogram_patterns g = 8 / 10 := by
  unfold analyze_histogram_patterns
  split_ifs <;> simp

/-- The grayscale score lies in [0, 1] for every input. -/
lemma grayscale_bounds (img : Image) :
    0 ≤ check_grayscale_nature img ∧ check_grayscale_nature img ≤ 1 := by
  cases img with
  | gray g => exact ⟨zero_le_one, le_refl 1⟩
  | rgb c =>
      refine ⟨le_min zero_le_one (le_max_left 0 _), min_le_left 1 _⟩

/-- Inversion of the try-block body: a successful run passes through a
nonempty gray image and returns the aggregation of the five sub-scores. -/
lemma characteristicsExc_ok (cv : CV) (img : Image) (r : MammoResult)
    (hr : characteristicsExc cv img = .ok r) :
    ∃ g : GrayImage, toGrayExc img = .ok g ∧ ¬(g.h = 0 ∨ g.w = 0) ∧
      r = aggregate (check_grayscale_nature img) (analyze_contrast_patterns g)
        (analyze_breast_shape_patterns cv g) (check_medical_artifacts g)
        (analyze_histogram_patterns g) := by
  cases img with
  | gray g0 =>
      by_cases hz : g0.h = 0 ∨ g0.w = 0
      · simp [characteristicsExc, toGrayExc, contrastExc, hz] at hr
      · refine ⟨g0, rfl, hz, ?_⟩
        simp [characteristicsExc, toGrayExc, contrastExc, shapeExc,
          histogramExc, hz] at hr
        exact hr.symm
  | rgb c =>
      by_cases hz : c.h = 0 ∨ c.w = 0
      · simp [characteristicsExc, toGrayExc, hz] at hr
      · have hz2 : ¬((cvtColorGray c).h = 0 ∨ (cvtColorGray c).w = 0) := hz
        refine ⟨cvtColorGray c, ?_, hz2, ?_⟩
        · simp [toGrayExc, hz]
        · simp [characteristicsExc, toGrayExc, contrastExc, shapeExc,
            histogramExc, hz, cvtColorGray] at hr
          exact hr.symm

/-- C1: aggregate returns confidence equal to the unweighted arithmetic mean
of the five sub-scores and a verdict equal to confidence > 0.7 with strict
inequality; for the sub-scores [0.8, 0.6, 0.7, 0.7, 0.8] the confidence is
0.72 and the verdict is True, and any five sub-scores with mean exactly 0.7
give verdict False. -/
theorem C1_aggregate_mean_strict_threshold (s1 s2 s3 s4 s5 : ℚ) :
    (aggregate s1 s2 s3 s4 s5).confidence = (s1 + s2 + s3 + s4 + s5) / 5 ∧
    ((aggregate s1 s2 s3 s4 s5).is_mammography = true ↔
      7 / 10 < (s1 + s2 + s3 + s4 + s5) / 5) ∧
    aggregate (8 / 10) (6 / 10) (7 / 10) (7 / 10) (8 / 10) = ⟨true, 72 / 100⟩ ∧
    ((s1 + s2 + s3 + s4 + s5) / 5 = 7 / 10 →
      (aggregate s1 s2 s3 s4 s5).is_mammography = false) := by
  refine ⟨rfl, ?_, ?_, ?_⟩
  · simp [aggregate]
  · unfold aggregate
    norm_num [MammoResult.mk.injEq, decide_eq_true_eq]
  · intro hmean
    simp [aggregate, hmean]

/-- Witness for C1 at the all-0.7 score vector, whose mean is exactly 0.7. -/
theorem C1_witness :
    (7 / 10 + 7 / 10 + 7 / 10 + 7 / 10 + 7 / 10 : ℚ) / 5 = 7 / 10 ∧
    (aggregate (7 / 10) (7 / 10) (7 / 10) (7 / 10) (7 / 10)).is_mammography = false :=
  ⟨by norm_num,
    (C1_aggregate_mean_strict_threshold (7 / 10) (7 / 10) (7 / 10) (7 / 10)
      (7 / 10)).2.2.2 (by norm_num)⟩

/-- C7: the shape score is 0.7 when the circle search finds at least one
circular structure, else 0.6 when the edge map yields more than 5 contours,
else 0.4, and it takes no other value. -/
theorem C7_shape_tiers (cv : CV) (g : GrayImage) :
    (0 < cv.houghCircleCount g → analyze_breast_shape_patterns cv g = 7 / 10) ∧
    (cv.houghCircleCount g = 0 → 5 < cv.cannyContourCount g →
      analyze_breast_shape_patterns cv g = 6 / 10) ∧
    (cv.houghCircleCount g = 0 → cv.cannyContourCount g ≤ 5 →
      analyze_breast_shape_patterns cv g = 4 / 10) ∧
    (analyze_breast_shape_patterns cv g = 4 / 10 ∨
      analyze_breast_shape_patterns cv g = 6 / 10 ∨
      analyze_breast_shape_patterns cv g = 7 / 10) := by
  refine ⟨?_, ?_, ?_, shape_cases cv g⟩
  · intro hc
    unfold analyze_breast_shape_patterns
    rw [if_pos hc]
  · intro hc hn
    unfold analyze_breast_shape_patterns
    rw [if_neg (by omega), if_pos hn]
  · intro hc hn
    unfold analyze_breast_shape_patterns
    rw [if_neg (by omega), if_neg (by omega)]

/-- Witness for C7 at a concrete oracle finding one circle on g6. -/
theorem C7_witness :
    0 < cv9.houghCircleCount g6 ∧ analyze_breast_shape_patterns cv9 g6 = 7 / 10 :=
  ⟨by decide, (C7_shape_tiers cv9 g6).1 (by decide)⟩

/-- The variance of three equal values is zero. -/
lemma popVar3_same (a : ℚ) : popVar3 a a a = 0 := by
  unfold popVar3
  ring

/-- C4: for every (nonempty) 3-channel image the grayscale score equals
max(0, 1 - v/1000) clamped to [0, 1], where v is the variance of the three
per-channel mean intensities, and on a uniformly gray image (all three
channels equal everywhere) it is exactly 1.0. -/
theorem C4_grayscale_formula_uniform_one (c : RGBImage)
    (hh : 0 < c.h) (hw : 0 < c.w) :
    check_grayscale_nature (.rgb c) = min 1 (max 0 (1 - colorVariance c / 1000)) ∧
    (0 ≤ check_grayscale_nature (.rgb c) ∧ check_grayscale_nature (.rgb c) ≤ 1) ∧
    ((∀ i j, c.r i j = c.g i j ∧ c.g i j = c.b i j) →
      check_grayscale_nature (.rgb c) = 1) := by
  refine ⟨rfl, grayscale_bounds (.rgb c), ?_⟩
  intro hu
  have hrg : chanMean c.h c.w c.r = chanMean c.h c.w c.g := by
    unfold chanMean gridSum
    congr 1
    refine Finset.sum_congr rfl fun i _ => Finset.sum_congr rfl fun j _ => ?_
    simp only [(hu i j).1]
  have hgb : chanMean c.h c.w c.g = chanMean c.h c.w c.b := by
    unfold chanMean gridSum
    congr 1
    refine Finset.sum_congr rfl fun i _ => Finset.sum_congr rfl fun j _ => ?_
    simp only [(hu i j).2]
  have hv : colorVariance c = 0 := by
    unfold colorVariance
    rw [hrg, hgb, popVar3_same]
  show min 1 (max 0 (1 - colorVariance c / 1000)) = 1
  rw [hv]
  norm_num

/-- Witness for C4 at the 2 by 2 uniformly gray image. -/
theorem C4_witness :
    (0 < uniformGray2.h ∧ 0 < uniformGray2.w) ∧
    check_grayscale_nature (.rgb uniformGray2) = 1 :=
  ⟨⟨by decide, by decide⟩,
    (C4_grayscale_formula_uniform_one uniformGray2 (by decide) (by decide)).2.2
      (fun _ _ => ⟨rfl, rfl⟩)⟩

/-- Splitting a sum of an if-below-w function over a doubled range. -/
lemma sum_range_two_blocks (w : ℕ) (a b : ℚ) :
    (∑ j ∈ Finset.range (2 * w), if j < w then a else b) = w * a + w * b := by
  rw [two_mul w, Finset.sum_range_add]
  have h1 : (∑ x ∈ Finset.range w, if x < w then a else b) =
      ∑ _x ∈ Finset.range w, a :=
    Finset.sum_congr rfl fun x hx => if_pos (Finset.mem_range.mp hx)
  have h2 : (∑ x ∈ Finset.range w, if w + x < w then a else b) =
      ∑ _x ∈ Finset.range w, b :=
    Finset.sum_congr rfl fun x _ => if_neg (by omega)
  rw [h1, h2, Finset.sum_const, Finset.sum_const, Finset.card_range]
  simp [nsmul_eq_mul]

/-- C5: every 3-channel image made of a pure-red half and a pure-blue half
scores strictly below 0.5 on the grayscale check. -/
theorem C5_red_blue_halves_below_half (h w : ℕ) (hh : 0 < h) (hw : 0 < w) :
    check_grayscale_nature (.rgb (redBlueHalves h w)) < 1 / 2 := by
  have hhq : ((h : ℚ)) ≠ 0 := Nat.cast_ne_zero.mpr hh.ne'
  have hwq : ((w : ℚ)) ≠ 0 := Nat.cast_ne_zero.mpr hw.ne'
  have hcast : (((h * (2 * w) : ℕ)) : ℚ) = (h : ℚ) * (2 * w) := by push_cast; ring
  have hr : chanMean h (2 * w) (redBlueHalves h w).r = 255 / 2 := by
    unfold chanMean gridSum
    have hinner : ∀ i ∈ Finset.range h,
        (∑ j ∈ Finset.range (2 * w),
          (((redBlueHalves h w).r i j : ℕ) : ℚ)) = w * 255 + w * 0 := by
      intro i _
      rw [show ((redBlueHalves h w).r i) = fun j => if j < w then (255 : ℕ) else 0
        from rfl]
      rw [show (∑ j ∈ Finset.range (2 * w),
          (((if j < w then (255 : ℕ) else 0) : ℕ) : ℚ)) =
          ∑ j ∈ Finset.range (2 * w), if j < w then (255 : ℚ) else 0 from
        Finset.sum_congr rfl fun j _ => by split_ifs <;> norm_num]
      exact sum_range_two_blocks w 255 0
    rw [Finset.sum_congr rfl hinner, Finset.sum_const, Finset.card_range, hcast]
    field_simp
    ring
  have hg : chanMean h (2 * w) (redBlueHalves h w).g = 0 := by
    unfold chanMean gridSum
    simp [redBlueHalves]
  have hb : chanMean h (2 * w) (redBlueHalves h w).b = 255 / 2 := by
    unfold chanMean gridSum
    have hinner : ∀ i ∈ Finset.range h,
        (∑ j ∈ Finset.range (2 * w),
          (((redBlueHalves h w).b i j : ℕ) : ℚ)) = w * 0 + w * 255 := by
      intro i _
      rw [show ((redBlueHalves h w).b i) = fun j => if j < w then (0 : ℕ) else 255
        from rfl]
      rw [show (∑ j ∈ Finset.range (2 * w),
          (((if j < w then (0 : ℕ) else 255) : ℕ) : ℚ)) =
          ∑ j ∈ Finset.range (2 * w), if j < w then (0 : ℚ) else 255 from
        Finset.sum_congr rfl fun j _ => by split_ifs <;> norm_num]
      exact sum_range_two_blocks w 0 255
    rw [Finset.sum_congr rfl hinner, Finset.sum_const, Finset.card_range, hcast]
    field_simp
    ring
  have hv : colorVariance (redBlueHalves h w) = 7225 / 2 := by
    unfold colorVariance
    rw [show (redBlueHalves h w).h = h from rfl,
      show (redBlueHalves h w).w = 2 * w from rfl, hr, hg, hb]
    norm_num [popVar3]
  show min 1 (max 0 (1 - colorVariance (redBlueHalves h w) / 1000)) < 1 / 2
  rw [hv]
  norm_num

/-- Witness for C5 at height 1 and half-width 1. -/
theorem C5_witness :
    (0 < 1 ∧ 0 < 1) ∧ check_grayscale_nature (.rgb (redBlueHalves 1 1)) < 1 / 2 :=
  ⟨⟨by decide, by decide⟩,
    C5_red_blue_halves_below_half 1 1 (by decide) (by decide)⟩

/-- Comparing a nonnegative bound with a square root is comparing its square
with the radicand; stated over rational bounds and radicand. -/
lemma sqrt_band (v a b : ℚ) (ha : 0 ≤ a) (hb : 0 < b) :
    (((a : ℚ) : ℝ) < Real.sqrt ((v : ℚ) : ℝ) ∧
      Real.sqrt ((v : ℚ) : ℝ) < ((b : ℚ) : ℝ)) ↔ (a ^ 2 < v ∧ v < b ^ 2) := by
  rw [Real.lt_sqrt (by exact_mod_cast ha), Real.sqrt_lt' (by exact_mod_cast hb)]
  constructor
  · rintro ⟨h1, h2⟩
    exact ⟨by exact_mod_cast h1, by exact_mod_cast h2⟩
  · rintro ⟨h1, h2⟩
    exact ⟨by exact_mod_cast h1, by exact_mod_cast h2⟩

/-- C6: with s the standard deviation of the pixel-wise absolute difference
between the grayscale image and its mean-filter blur, the contrast score is
0.8 when 10 < s < 50, 0.6 when 5 < s < 80 but not 10 < s < 50, and 0.3
otherwise, and it takes no other value. -/
theorem C6_contrast_tiers (g : GrayImage) :
    ((10 : ℝ) < Real.sqrt (contrastVariance g : ℝ) ∧
        Real.sqrt (contrastVariance g : ℝ) < 50 →
      analyze_contrast_patterns g = 8 / 10) ∧
    ((5 : ℝ) < Real.sqrt (contrastVariance g : ℝ) ∧
        Real.sqrt (contrastVariance g : ℝ) < 80 ∧
        ¬((10 : ℝ) < Real.sqrt (contrastVariance g : ℝ) ∧
          Real.sqrt (contrastVariance g : ℝ) < 50) →
      analyze_contrast_patterns g = 6 / 10) ∧
    (¬((5 : ℝ) < Real.sqrt (contrastVariance g : ℝ) ∧
        Real.sqrt (contrastVariance g : ℝ) < 80) →
      analyze_contrast_patterns g = 3 / 10) ∧
    (analyze_contrast_patterns g = 3 / 10 ∨ analyze_contrast_patterns g = 6 / 10 ∨
      analyze_contrast_patterns g = 8 / 10) := by
  have b1 : ((10 : ℝ) < Real.sqrt (contrastVariance g : ℝ) ∧
      Real.sqrt (contrastVariance g : ℝ) < 50) ↔
      (100 < contrastVariance g ∧ contrastVariance g < 2500) := by
    have hb := sqrt_band (contrastVariance g) 10 50 (by norm_num) (by norm_num)
    norm_num at hb
    exact hb
  have b2 : ((5 : ℝ) < Real.sqrt (contrastVariance g : ℝ) ∧
      Real.sqrt (contrastVariance g : ℝ) < 80) ↔
      (25 < contrastVariance g ∧ contrastVariance g < 6400) := by
    have hb := sqrt_band (contrastVariance g) 5 80 (by norm_num) (by norm_num)
    norm_num at hb
    exact hb
  refine ⟨?_, ?_, ?_, contrast_cases g⟩
  · intro hs
    have hv := b1.mp hs
    unfold analyze_contrast_patterns
    rw [if_pos hv]
  · rintro ⟨h5, h80, hnot⟩
    have hv2 : 25 < contrastVariance g ∧ contrastVariance g < 6400 := b2.mp ⟨h5, h80⟩
    have hv1 : ¬(100 < contrastVariance g ∧ contrastVariance g < 2500) :=
      fun hc => hnot (b1.mpr hc)
    unfold analyze_contrast_patterns
    rw [if_neg hv1, if_pos hv2]
  · intro hnot
    have hv2 : ¬(25 < contrastVariance g ∧ contrastVariance g < 6400) :=
      fun hc => hnot (b2.mpr hc)
    have hv1 : ¬(100 < contrastVariance g ∧ contrastVariance g < 2500) := by
      rintro ⟨hA, hB⟩
      exact hv2 ⟨by linarith, by linarith⟩
    unfold analyze_contrast_patterns
    rw [if_neg hv1, if_neg hv2]

/-- The 1 by 1 zero image has zero local-contrast variance. -/
lemma contrastVariance_g1 : contrastVariance g1 = 0 := by
  simp [contrastVariance, gridSum, contrastAt, blur5, g1, reflect101,
    Finset.sum_range_succ]

/-- Witness for C6 at the 1 by 1 zero image, whose contrast deviation is 0. -/
theorem C6_witness :
    ¬((5 : ℝ) < Real.sqrt (contrastVariance g1 : ℝ) ∧
      Real.sqrt (contrastVariance g1 : ℝ) < 80) ∧
    analyze_contrast_patterns g1 = 3 / 10 := by
  have hs : Real.sqrt (contrastVariance g1 : ℝ) = 0 := by
    rw [contrastVariance_g1]
    simp
  have hno : ¬((5 : ℝ) < Real.sqrt (contrastVariance g1 : ℝ) ∧
      Real.sqrt (contrastVariance g1 : ℝ) < 80) := by
    rw [hs]
    norm_num
  exact ⟨hno, (C6_contrast_tiers g1).2.2.1 hno⟩

/-- Confidence field of the aggregation is the five-score mean. -/
lemma aggregate_confidence (s1 s2 s3 s4 s5 : ℚ) :
    (aggregate s1 s2 s3 s4 s5).confidence = (s1 + s2 + s3 + s4 + s5) / 5 := rfl

/-- Verdict field of the aggregation is the strict 0.7 threshold test. -/
lemma aggregate_verdict (s1 s2 s3 s4 s5 : ℚ) :
    (aggregate s1 s2 s3 s4 s5).is_mammography = true ↔
      7 / 10 < (s1 + s2 + s3 + s4 + s5) / 5 := by
  simp [aggregate]

/-- Contrast score range. -/
lemma contrast_range (g : GrayImage) :
    3 / 10 ≤ analyze_contrast_patterns g ∧ analyze_contrast_patterns g ≤ 8 / 10 := by
  rcases contrast_cases g with h | h | h <;> rw [h] <;> norm_num

/-- Shape score range. -/
lemma shape_range (cv : CV) (g : GrayImage) :
    4 / 10 ≤ analyze_breast_shape_patterns cv g ∧
      analyze_breast_shape_patterns cv g ≤ 7 / 10 := by
  rcases shape_cases cv g with h | h | h <;> rw [h] <;> norm_num

/-- Artifact score range. -/
lemma artifact_range (g : GrayImage) :
    4 / 10 ≤ check_medical_artifacts g ∧ check_medical_artifacts g ≤ 7 / 10 := by
  rcases artifact_cases g with h | h <;> rw [h] <;> norm_num

/-- Histogram score range. -/
lemma histogram_range (g : GrayImage) :
    5 / 10 ≤ analyze_histogram_patterns g ∧ analyze_histogram_patterns g ≤ 8 / 10 := by
  rcases histogram_cases g with h | h <;> rw [h] <;> norm_num

/-- C8: every sub-score and the aggregated confidence lie in [0, 1]. -/
theorem C8_scores_confidence_in_unit_interval (cv : CV) (img : Image) (g : GrayImage) :
    (0 ≤ check_grayscale_nature img ∧ check_grayscale_nature img ≤ 1) ∧
    (0 ≤ analyze_contrast_patterns g ∧ analyze_contrast_patterns g ≤ 1) ∧
    (0 ≤ analyze_breast_shape_patterns cv g ∧
      analyze_breast_shape_patterns cv g ≤ 1) ∧
    (0 ≤ check_medical_artifacts g ∧ check_medical_artifacts g ≤ 1) ∧
    (0 ≤ analyze_histogram_patterns g ∧ analyze_histogram_patterns g ≤ 1) ∧
    (0 ≤ (check_mammography_characteristics cv img).confidence ∧
      (check_mammography_characteristics cv img).confidence ≤ 1) := by
  refine ⟨grayscale_bounds img, ?_, ?_, ?_, ?_, ?_⟩
  · rcases contrast_cases g with h | h | h <;> rw [h] <;> norm_num
  · rcases shape_cases cv g with h | h | h <;> rw [h] <;> norm_num
  · rcases artifact_cases g with h | h <;> rw [h] <;> norm_num
  · rcases histogram_cases g with h | h <;> rw [h] <;> norm_num
  · unfold check_mammography_characteristics
    cases hE : characteristicsExc cv img with
    | error e => norm_num
    | ok r =>
        obtain ⟨g0, _, _, hagg⟩ := characteristicsExc_ok cv img r hE
        rw [hagg, aggregate_confidence]
        have h1 := grayscale_bounds img
        have h2 := contrast_range g0
        have h3 := shape_range cv g0
        have h4 := artifact_range g0
        have h5 := histogram_range g0
        constructor <;> [linarith; linarith]

/-- C9: the other four sub-scores never exceed 0.8, 0.7, 0.7, 0.8, so a True
verdict (mean of five strictly above 0.7, i.e. sum strictly above 3.5)
forces the grayscale sub-score strictly above 0.5. -/
theorem C9_verdict_forces_grayscale_above_half (cv : CV) (img : Image) (g : GrayImage) :
    (analyze_contrast_patterns g ≤ 8 / 10 ∧
      analyze_breast_shape_patterns cv g ≤ 7 / 10 ∧
      check_medical_artifacts g ≤ 7 / 10 ∧
      analyze_histogram_patterns g ≤ 8 / 10) ∧
    ((check_mammography_characteristics cv img).is_mammography = true →
      1 / 2 < check_grayscale_nature img) := by
  refine ⟨⟨(contrast_range g).2, (shape_range cv g).2, (artifact_range g).2,
    (histogram_range g).2⟩, ?_⟩
  intro hvm
  unfold check_mammography_characteristics at hvm
  cases hE : characteristicsExc cv img with
  | error e => rw [hE] at hvm; simp at hvm
  | ok r =>
      rw [hE] at hvm
      obtain ⟨g0, _, _, hagg⟩ := characteristicsExc_ok cv img r hE
      rw [hagg] at hvm
      have hconf := (aggregate_verdict _ _ _ _ _).mp hvm
      have h2 := (contrast_range g0).2
      have h3 := (shape_range cv g0).2
      have h4 := (artifact_range g0).2
      have h5 := (histogram_range g0).2
      linarith

/-- C10: whenever the whole try block succeeds, the aggregated confidence
lies in [0.32, 0.8]: the four non-grayscale sub-scores have minima
0.3, 0.4, 0.4, 0.5 and maxima 0.8, 0.7, 0.7, 0.8, and the grayscale score
lies in [0, 1]. -/
theorem C10_confidence_bounds (cv : CV) (img : Image) (r : MammoResult)
    (hr : characteristicsExc cv img = .ok r) :
    8 / 25 ≤ r.confidence ∧ r.confidence ≤ 4 / 5 := by
  obtain ⟨g0, _, _, hagg⟩ := characteristicsExc_ok cv img r hr
  rw [hagg, aggregate_confidence]
  have h1 := grayscale_bounds img
  have h2 := contrast_range g0
  have h3 := shape_range cv g0
  have h4 := artifact_range g0
  have h5 := histogram_range g0
  constructor <;> [linarith; linarith]

/-- Blur value of g6 at column 0. -/
lemma blur_g6_0 : blur5 g6 0 0 = 0 := by
  norm_num [blur5, g6, reflect101, reflectOnce, Finset.sum_range_succ]

/-- Blur value of g6 at column 1. -/
lemma blur_g6_1 : blur5 g6 0 1 = 40 := by
  norm_num [blur5, g6, reflect101, reflectOnce, Finset.sum_range_succ]

/-- Blur value of g6 at column 2. -/
lemma blur_g6_2 : blur5 g6 0 2 = 80 := by
  norm_num [blur5, g6, reflect101, reflectOnce, Finset.sum_range_succ]

/-- Blur value of g6 at column 3. -/
lemma blur_g6_3 : blur5 g6 0 3 = 120 := by
  norm_num [blur5, g6, reflect101, reflectOnce, Finset.sum_range_succ]

/-- Blur value of g6 at column 4. -/
lemma blur_g6_4 : blur5 g6 0 4 = 160 := by
  norm_num [blur5, g6, reflect101, reflectOnce, Finset.sum_range_succ]

/-- Blur value of g6 at column 5. -/
lemma blur_g6_5 : blur5 g6 0 5 = 200 := by
  norm_num [blur5, g6, reflect101, reflectOnce, Finset.sum_range_succ]

/-- Local contrast of g6 at column 0. -/
lemma con_g6_0 : contrastAt g6 0 0 = 0 := by
  rw [contrastAt, blur_g6_0]; norm_num [g6]

/-- Local contrast of g6 at column 1. -/
lemma con_g6_1 : contrastAt g6 0 1 = 40 := by
  rw [contrastAt, blur_g6_1]; norm_num [g6]

/-- Local contrast of g6 at column 2. -/
lemma con_g6_2 : contrastAt g6 0 2 = 80 := by
  rw [contrastAt, blur_g6_2]; norm_num [g6]

/-- Local contrast of g6 at column 3. -/
lemma con_g6_3 : contrastAt g6 0 3 = 80 := by
  rw [contrastAt, blur_g6_3]; norm_num [g6]

/-- Local contrast of g6 at column 4. -/
lemma con_g6_4 : contrastAt g6 0 4 = 40 := by
  rw [contrastAt, blur_g6_4]; norm_num [g6]

/-- Local contrast of g6 at column 5. -/
lemma con_g6_5 : contrastAt g6 0 5 = 0 := by
  rw [contrastAt, blur_g6_5]; norm_num [g6]

/-- Contrast variance of g6: the contrast row is [0, 40, 80, 80, 40, 0] with
mean 40, so the population variance is 3200/3 and the standard deviation
lies strictly between 10 and 50. -/
lemma contrastVariance_g6 : contrastVariance g6 = 3200 / 3 := by
  rw [contrastVariance]
  rw [show g6.h = 1 from rfl, show g6.w = 6 from rfl]
  rw [gridSum, gridSum]
  simp only [Finset.sum_range_succ, Finset.sum_range_zero,
    con_g6_0, con_g6_1, con_g6_2, con_g6_3, con_g6_4, con_g6_5]
  norm_num

/-- Contrast tier of g6. -/
lemma contrast_g6 : analyze_contrast_patterns g6 = 8 / 10 := by
  unfold analyze_contrast_patterns
  simp only [contrastVariance_g6]
  norm_num

/-- Shape tier of g6 under the one-circle oracle. -/
lemma shape_cv9_g6 : analyze_breast_shape_patterns cv9 g6 = 7 / 10 := by
  unfold analyze_breast_shape_patterns
  rw [if_pos (by decide : 0 < cv9.houghCircleCount g6)]

/-- Corner variance of g6: all four clipped corners are the whole 1 by 6
image with mean 100, so the variance of the corner means is 0. -/
lemma cornerVariance_g6 : cornerVariance g6 = 0 := by
  have hm : regionMean g6 0 1 0 6 = 100 := by
    norm_num [regionMean, g6, Finset.sum_Ico_eq_sum_range, Finset.sum_range_succ]
  rw [cornerVariance, show g6.h = 1 from rfl, show g6.w = 6 from rfl]
  norm_num [hm, popVar4]

/-- Artifact tier of g6. -/
lemma artifact_g6 : check_medical_artifacts g6 = 7 / 10 := by
  unfold check_medical_artifacts
  rw [if_neg (by decide : ¬(g6.h = 0 ∨ g6.w = 0))]
  rw [if_pos (by rw [cornerVariance_g6]; norm_num)]

/-- Histogram tier of g6: one significant peak (intensity 200; bin 0 is not
eligible in the loop over 1..254). -/
lemma hist_g6 : analyze_histogram_patterns g6 = 8 / 10 := by
  unfold analyze_histogram_patterns
  rw [if_pos (by decide)]

/-- Full pipeline value on g6 under the one-circle oracle. -/
lemma characteristicsExc_cv9_g6 :
    characteristicsExc cv9 (.gray g6) = .ok ⟨true, 4 / 5⟩ := by
  have hgz : ¬(g6.h = 0 ∨ g6.w = 0) := by decide
  have hagg : aggregate (check_grayscale_nature (.gray g6))
      (analyze_contrast_patterns g6) (analyze_breast_shape_patterns cv9 g6)
      (check_medical_artifacts g6) (analyze_histogram_patterns g6) =
      ⟨true, 4 / 5⟩ := by
    rw [show check_grayscale_nature (.gray g6) = 1 from rfl, contrast_g6,
      shape_cv9_g6, artifact_g6, hist_g6]
    unfold aggregate
    norm_num [MammoResult.mk.injEq, decide_eq_true_eq]
  simp only [characteristicsExc, toGrayExc, contrastExc, shapeExc, histogramExc,
    if_neg hgz]
  rw [hagg]

/-- Verdict on g6 under the one-circle oracle. -/
lemma check_cv9_g6 :
    check_mammography_characteristics cv9 (.gray g6) = ⟨true, 4 / 5⟩ := by
  unfold check_mammography_characteristics
  rw [characteristicsExc_cv9_g6]

/-- Witness for C9: a concrete image and oracle with a True verdict, whose
grayscale score (1.0) indeed exceeds 0.5. -/
theorem C9_witness :
    (check_mammography_characteristics cv9 (.gray g6)).is_mammography = true ∧
    1 / 2 < check_grayscale_nature (.gray g6) := by
  have hvm : (check_mammography_characteristics cv9 (.gray g6)).is_mammography =
      true := by
    rw [check_cv9_g6]
  exact ⟨hvm, (C9_verdict_forces_grayscale_above_half cv9 (.gray g6) g6).2 hvm⟩

/-- Contrast tier of the 1 by 1 zero image. -/
lemma contrast_g1 : analyze_contrast_patterns g1 = 3 / 10 := by
  unfold analyze_contrast_patterns
  simp only [contrastVariance_g1]
  norm_num

/-- Shape tier of g1 under the nothing-found oracle. -/
lemma shape_cv0_g1 : analyze_breast_shape_patterns cv0 g1 = 4 / 10 := by
  unfold analyze_breast_shape_patterns
  rw [if_neg (by decide), if_neg (by decide)]

/-- Corner variance of the 1 by 1 zero image. -/
lemma cornerVariance_g1 : cornerVariance g1 = 0 := by
  have hm : regionMean g1 0 1 0 1 = 0 := by
    norm_num [regionMean, g1, Finset.sum_Ico_eq_sum_range, Finset.sum_range_succ]
  rw [cornerVariance, show g1.h = 1 from rfl, show g1.w = 1 from rfl]
  norm_num [hm, popVar4]

/-- Artifact tier of g1. -/
lemma artifact_g1 : check_medical_artifacts g1 = 7 / 10 := by
  unfold check_medical_artifacts
  rw [if_neg (by decide : ¬(g1.h = 0 ∨ g1.w = 0))]
  rw [if_pos (by rw [cornerVariance_g1]; norm_num)]

/-- Histogram tier of g1: the only populated bin is 0, which the peak loop
never visits, so there are no significant peaks. -/
lemma hist_g1 : analyze_histogram_patterns g1 = 5 / 10 := by
  unfold analyze_histogram_patterns
  rw [if_neg (by decide)]

/-- Full pipeline value on g1 under the nothing-found oracle. -/
lemma characteristicsExc_cv0_g1 :
    characteristicsExc cv0 (.gray g1) = .ok ⟨false, 29 / 50⟩ := by
  have hgz : ¬(g1.h = 0 ∨ g1.w = 0) := by decide
  have hagg : aggregate (check_grayscale_nature (.gray g1))
      (analyze_contrast_patterns g1) (analyze_breast_shape_patterns cv0 g1)
      (check_medical_artifacts g1) (analyze_histogram_patterns g1) =
      ⟨false, 29 / 50⟩ := by
    rw [show check_grayscale_nature (.gray g1) = 1 from rfl, contrast_g1,
      shape_cv0_g1, artifact_g1, hist_g1]
    unfold aggregate
    norm_num [MammoResult.mk.injEq, decide_eq_false_iff_not]
  simp only [characteristicsExc, toGrayExc, contrastExc, shapeExc, histogramExc,
    if_neg hgz]
  rw [hagg]

/-- Witness for C10: a successful pipeline run with confidence 0.58, which
lies inside [0.32, 0.8]. -/
theorem C10_witness :
    characteristicsExc cv0 (.gray g1) = .ok ⟨false, 29 / 50⟩ ∧
    (8 / 25 ≤ (MammoResult.mk false (29 / 50)).confidence ∧
      (MammoResult.mk false (29 / 50)).confidence ≤ 4 / 5) :=
  ⟨characteristicsExc_cv0_g1,
    C10_confidence_bounds cv0 (.gray g1) ⟨false, 29 / 50⟩ characteristicsExc_cv0_g1⟩

/-- C2 counterexample: on the empty 2-D image the grayscale sub-score itself
computes fine (1.0), but the contrast step cannot execute (cv2.filter2D
raises), and the whole characteristic analysis aborts with confidence 0.0
and verdict False; no per-sub-score fallback takes place, although the mean
of the five documented fallback scores would be 0.52, not 0. -/
theorem C2_counterexample :
    contrastExc emptyGray = .error "filter2D" ∧
    check_grayscale_nature (.gray emptyGray) = 1 ∧
    check_mammography_characteristics cv0 (.gray emptyGray) = ⟨false, 0⟩ ∧
    (0 : ℚ) < (1 + 3 / 10 + 4 / 10 + 4 / 10 + 5 / 10) / 5 := by
  have hgz : emptyGray.h = 0 ∨ emptyGray.w = 0 := Or.inl rfl
  refine ⟨?_, rfl, ?_, by norm_num⟩
  · unfold contrastExc
    rw [if_pos hgz]
  · simp only [check_mammography_characteristics, characteristicsExc,
      toGrayExc, contrastExc, if_pos hgz]

/-- C2 amended: the five sub-scores and the aggregation are wrapped in one
try/except; if any step raises on a degenerate input, the entire analysis
falls back to the initial defaults is_mammography = False and
confidence = 0.0, instead of a per-sub-score fallback. -/
theorem C2_amended_broad_catch (cv : CV) (img : Image) (e : String)
    (h : characteristicsExc cv img = .error e) :
    check_mammography_characteristics cv img = ⟨false, 0⟩ := by
  unfold check_mammography_characteristics
  rw [h]

/-- Witness for the amended C2 at the empty image, where the contrast step is
the failing one. -/
theorem C2_witness :
    characteristicsExc cv0 (.gray emptyGray) = .error "filter2D" ∧
    check_mammography_characteristics cv0 (.gray emptyGray) = ⟨false, 0⟩ := by
  have hgz : emptyGray.h = 0 ∨ emptyGray.w = 0 := Or.inl rfl
  have he : characteristicsExc cv0 (.gray emptyGray) = .error "filter2D" := by
    simp only [characteristicsExc, toGrayExc, contrastExc, if_pos hgz]
  exact ⟨he, C2_amended_broad_catch cv0 (.gray emptyGray) "filter2D" he⟩

/-- Summing a period-n function over m full periods. -/
lemma sum_range_mul_period (f : ℕ → ℚ) (m n : ℕ) :
    (∑ j ∈ Finset.range (m * n), f (j % n)) = m * ∑ k ∈ Finset.range n, f k := by
  induction m with
  | zero => simp
  | succ m ih =>
      rw [Nat.succ_mul, Finset.sum_range_add, ih]
      have hcong : ∀ x ∈ Finset.range n, f ((m * n + x) % n) = f x := fun x hx => by
        rw [Nat.add_comm, Nat.add_mul_mod_self_right,
          Nat.mod_eq_of_lt (Finset.mem_range.mp hx)]
      rw [Finset.sum_congr rfl hcong]
      push_cast
      ring

/-- Mean of a column-periodic channel over the 512 by 512 grid is the mean
of one period. -/
lemma chanMean_period (L : List ℕ) :
    chanMean 512 512 (fun _ j => L.getD (j % 16) 0) =
      (∑ k ∈ Finset.range 16, ((L.getD k 0 : ℕ) : ℚ)) / 16 := by
  unfold chanMean gridSum
  have hinner : (∑ j ∈ Finset.range 512, ((L.getD (j % 16) 0 : ℕ) : ℚ)) =
      32 * ∑ k ∈ Finset.range 16, ((L.getD k 0 : ℕ) : ℚ) := by
    have h := sum_range_mul_period (fun k => ((L.getD k 0 : ℕ) : ℚ)) 32 16
    rw [show (32 * 16 : ℕ) = 512 from rfl] at h
    exact h
  rw [Finset.sum_congr rfl fun i _ => hinner, Finset.sum_const, Finset.card_range]
  push_cast
  ring

/-- Mean of the red channel of the randomized image. -/
lemma chanMean_randR :
    chanMean randomRGB512.h randomRGB512.w randomRGB512.r = 445 / 4 := by
  rw [show randomRGB512.h = 512 from rfl, show randomRGB512.w = 512 from rfl,
    show randomRGB512.r = fun _ j => randR.getD (j % 16) 0 from rfl,
    chanMean_period]
  norm_num [randR, Finset.sum_range_succ]

/-- Mean of the green channel of the randomized image. -/
lemma chanMean_randG :
    chanMean randomRGB512.h randomRGB512.w randomRGB512.g = 443 / 4 := by
  rw [show randomRGB512.h = 512 from rfl, show randomRGB512.w = 512 from rfl,
    show randomRGB512.g = fun _ j => randG.getD (j % 16) 0 from rfl,
    chanMean_period]
  norm_num [randG, Finset.sum_range_succ]

/-- Mean of the blue channel of the randomized image. -/
lemma chanMean_randB :
    chanMean randomRGB512.h randomRGB512.w randomRGB512.b = 1789 / 16 := by
  rw [show randomRGB512.h = 512 from rfl, show randomRGB512.w = 512 from rfl,
    show randomRGB512.b = fun _ j => randB.getD (j % 16) 0 from rfl,
    chanMean_period]
  norm_num [randB, Finset.sum_range_succ]

/-- Grayscale score of the randomized-channel image: although the three
channels are unrelated byte streams, their means are nearly equal
(111.25, 110.75, 111.8125), the variance of the means is only 217/1152,
and the score is about 0.9998. -/
lemma score_randomRGB512 :
    check_grayscale_nature (.rgb randomRGB512) = 1151783 / 1152000 := by
  show min 1 (max 0 (1 - colorVariance randomRGB512 / 1000)) = 1151783 / 1152000
  unfold colorVariance
  rw [chanMean_randR, chanMean_randG, chanMean_randB]
  norm_num [popVar3]

/-- C3 counterexample: a 512 by 512 image with independently randomized
red, green and blue channels on which score_grayscale is not below 0.3 (it
is 1151783/1152000, approximately 0.9998). -/
theorem C3_counterexample :
    randomRGB512.h = 512 ∧ randomRGB512.w = 512 ∧
    check_grayscale_nature (.rgb randomRGB512) = 1151783 / 1152000 ∧
    ¬(check_grayscale_nature (.rgb randomRGB512) < 3 / 10) := by
  refine ⟨rfl, rfl, score_randomRGB512, ?_⟩
  rw [score_randomRGB512]
  norm_num

/-- Variances are nonnegative. -/
lemma popVar3_nonneg (a b c : ℚ) : 0 ≤ popVar3 a b c := by
  unfold popVar3
  positivity

/-- C3 amended: the grayscale score of a 3-channel image is below 0.3
exactly when the variance of the three per-channel means exceeds 700;
independently randomized channels have nearly equal means, so such an image
scores near 1.0 rather than below 0.3, as the concrete randomized image
shows. -/
theorem C3_amended_randomized_scores_high (c : RGBImage) :
    (check_grayscale_nature (.rgb c) < 3 / 10 ↔ 700 < colorVariance c) ∧
    check_grayscale_nature (.rgb randomRGB512) = 1151783 / 1152000 := by
  refine ⟨?_, score_randomRGB512⟩
  have hv : 0 ≤ colorVariance c := popVar3_nonneg _ _ _
  show min 1 (max 0 (1 - colorVariance c / 1000)) < 3 / 10 ↔ _
  rw [min_lt_iff, max_lt_iff]
  constructor
  · rintro (h1 | ⟨h0, h2⟩)
    · linarith
    · linarith
  · intro h700
    right
    constructor
    · norm_num
    · linarith

end ImageValidator
